import Mathlib

/-!
Verification of the ai-hiring-agent repository (a Flask backend `flaskapi.py`
plus a Streamlit dashboard `stream.py`) against its natural-language
specification.

Python strings are modelled as lists of characters (`PyStr`); the ASCII
fragment of `str.isdigit`, `str.lower` and `str.strip` is used, which covers
every string the program manipulates.  Python `int` is modelled as `Int`.
The functions below are shallow embeddings of the source functions; each one
carries a comment pointing to the source lines it embeds.
-/

/-- Python strings, modelled as lists of characters. -/
abbrev PyStr := List Char

/-- Literal helper: the characters of a Lean string literal. -/
def pstr (s : String) : PyStr := s.toList

/-- Python `s.startswith(pat)` on character lists. -/
def startsWithL : PyStr → PyStr → Bool
  | [], _ => true
  | _ :: _, [] => false
  | p :: ps, c :: cs => p == c && startsWithL ps cs

/-- Python `pat in s` (substring containment) on character lists. -/
def containsSub (pat : PyStr) : PyStr → Bool
  | [] => startsWithL pat []
  | c :: cs => startsWithL pat (c :: cs) || containsSub pat cs

/-- The characters after the first occurrence of `sep` (all consumed if `sep`
never occurs).  For non-empty `sep` occurring in `s`, `s.split(sep)` in
Python has `afterFirst sep s` as the concatenation of the pieces after the
first one, interleaved with `sep`. -/
def afterFirst (sep : PyStr) : PyStr → PyStr
  | [] => []
  | c :: cs =>
    if startsWithL sep (c :: cs) then List.drop sep.length (c :: cs)
    else afterFirst sep cs

/-- The characters before the first occurrence of `sep` (all of `s` if `sep`
never occurs).  This is Python `s.split(sep)[0]` for non-empty `sep`. -/
def takeBefore (sep : PyStr) : PyStr → PyStr
  | [] => []
  | c :: cs =>
    if startsWithL sep (c :: cs) then []
    else c :: takeBefore sep cs

/-- Python `s.split(sep)[0]` for non-empty `sep`. -/
def splitIdx0 (sep s : PyStr) : PyStr := takeBefore sep s

/-- Python `s.split(sep)[1]` for non-empty `sep`, meaningful when `sep`
occurs in `s`: the text strictly between the first occurrence of `sep` and
the second one (to the end of the string when there is no second
occurrence). -/
def splitIdx1 (sep s : PyStr) : PyStr := takeBefore sep (afterFirst sep s)

/-- Python `s.split("\n")`: the list of lines, empty pieces preserved. -/
def pyLines : PyStr → List PyStr
  | [] => [[]]
  | c :: cs =>
    if c == '\n' then [] :: pyLines cs
    else
      match pyLines cs with
      | [] => [[c]]
      | l :: ls => (c :: l) :: ls

/-- Python `s.strip()` (ASCII whitespace). -/
def pyStrip (s : PyStr) : PyStr :=
  ((s.dropWhile Char.isWhitespace).reverse.dropWhile Char.isWhitespace).reverse

/-- Python `s.lower()` (ASCII letters). -/
def pyLower (s : PyStr) : PyStr := s.map Char.toLower

/-- Python `sep.join(parts)`. -/
def pyJoin (sep : PyStr) : List PyStr → PyStr
  | [] => []
  | [s] => s
  | s :: rest => s ++ sep ++ pyJoin sep rest

/-- Python `int(ds)` for a non-empty string `ds` of ASCII digits.  The digit
string is a concatenation of decimal digits, so the value is a natural
number, cast into `Int` (the model of Python `int`). -/
def digitsToInt (ds : PyStr) : Int :=
  ((ds.foldl (fun a c => a * 10 + (c.toNat - 48)) 0 : Nat) : Int)

/-- Python `str(i)` for an integer. -/
def intToPyStr (i : Int) : PyStr := (toString i).toList

/-- The literal token `"Score"` searched for by `extract_score`
(stream.py line 211). -/
def scoreTok : PyStr := pstr (r"Score")

/-- The newline separator. -/
def nlTok : PyStr := pstr ("\n")

/-- The literal token `"Strengths:"` (stream.py line 200). -/
def strengthsTok : PyStr := pstr (r"Strengths:")

/-- The literal token `"Weaknesses:"` (stream.py line 201). -/
def weaknessesTok : PyStr := pstr (r"Weaknesses:")

/-- The hyphen prefix looked for by `extract_skills` (stream.py line 204). -/
def hyphenTok : PyStr := pstr (r"-")

/-- Embedding of `extract_score` (stream.py lines 210-218):

    if "Score" in analysis_text:
        try:
            score_text = analysis_text.split("Score")[1].split("\n")[0]
            score = int of the digit characters kept from score_text
            return score
        except:
            return None
    return None

When `"Score"` occurs, `split("Score")[1]` exists, so the only exception the
`try` can see is int applied to an empty digit string, which yields `None`;
the join-of-filtered-digits step keeps exactly the ASCII digit characters of
score_text, in order. -/
def extract_score (analysis_text : PyStr) : Option Int :=
  if containsSub scoreTok analysis_text then
    let score_text := splitIdx0 nlTok (splitIdx1 scoreTok analysis_text)
    let ds := score_text.filter Char.isDigit
    if ds.isEmpty then none else some (digitsToInt ds)
  else none

/-- Embedding of `extract_skills` (stream.py lines 196-207):

    skills = []
    if "Strengths:" in analysis_text:
        strengths_text = analysis_text.split("Strengths:")[1].split("Weaknesses:")[0]
        for line in strengths_text.split("\n"):
            if line.strip().startswith("-"):
                skills.append(line.strip()[2:])
    return skills

The accumulating loop is embedded as a left fold appending to the list. -/
def extract_skills (analysis_text : PyStr) : List PyStr :=
  if containsSub strengthsTok analysis_text then
    let strengths_text := splitIdx0 weaknessesTok (splitIdx1 strengthsTok analysis_text)
    (pyLines strengths_text).foldl
      (fun skills line =>
        if startsWithL hyphenTok (pyStrip line) then skills ++ [(pyStrip line).drop 2]
        else skills) []
  else []

/-- Modelled from the spec's words for claim C3: the score is "the integer
formed by the first run of digits following the literal token Score", `none`
when the token is absent or no digits follow it.  This is the claimed
behaviour, to be compared with `extract_score` as embedded from the code. -/
def extract_score_spec (analysis_text : PyStr) : Option Int :=
  if containsSub scoreTok analysis_text then
    let rest := afterFirst scoreTok analysis_text
    let run := (rest.dropWhile (fun c => !c.isDigit)).takeWhile Char.isDigit
    if run.isEmpty then none else some (digitsToInt run)
  else none

/-- Single left-to-right scan after the first `"Score"`: collect the digit
characters until a newline or a further occurrence of `"Score"` is reached. -/
def collectScoreDigits : PyStr → PyStr
  | [] => []
  | c :: cs =>
    if startsWithL scoreTok (c :: cs) then []
    else if c == '\n' then []
    else if c.isDigit then c :: collectScoreDigits cs
    else collectScoreDigits cs

/-- The amended reading of claim C3: the score is the integer formed by
concatenating all the digit characters lying after the first `"Score"` token
and before the first subsequent newline or further `"Score"` token; `none`
when the token is absent or that segment holds no digit. -/
def extract_score_amended (analysis_text : PyStr) : Option Int :=
  if containsSub scoreTok analysis_text then
    let ds := collectScoreDigits (afterFirst scoreTok analysis_text)
    if ds.isEmpty then none else some (digitsToInt ds)
  else none

/-- Modelled from the spec's words for claim C5: skill extraction returns
"exactly the lines beginning with `-` that lie in the span between the
marker `Strengths:` and the marker `Weaknesses:`", the empty list when the
markers are absent.  This is the claimed behaviour, to be compared with
`extract_skills` as embedded from the code. -/
def extract_skills_spec (analysis_text : PyStr) : List PyStr :=
  if containsSub strengthsTok analysis_text && containsSub weaknessesTok analysis_text then
    (pyLines (takeBefore weaknessesTok (afterFirst strengthsTok analysis_text))).filter
      (fun line => startsWithL hyphenTok line)
  else []

/-- The amended reading of claim C5: for each line of the span whose
whitespace-stripped form begins with `-`, the stripped form with its first
two characters removed, in order; the empty list when `"Strengths:"` is
absent. -/
def extract_skills_amended (analysis_text : PyStr) : List PyStr :=
  if containsSub strengthsTok analysis_text then
    ((pyLines (splitIdx0 weaknessesTok (splitIdx1 strengthsTok analysis_text))).filter
        (fun line => startsWithL hyphenTok (pyStrip line))).map
      (fun line => (pyStrip line).drop 2)
  else []

/-- A candidate record as built by `analyze_single_resume`
(stream.py lines 279-288).  The opaque uploaded-file handle stored under the
`"file"` key is omitted: no claim refers to it and it is never read by the
filtering code. -/
structure Candidate where
  name : PyStr
  analysis : PyStr
  score : Int
  skills : List PyStr
  verdict : PyStr
  filtered_out : Bool
  filter_reason : PyStr
deriving DecidableEq, Repr

/-- The score stored in a candidate record for a given analysis text:
`score if score is not None else 0` (stream.py line 282). -/
def storedScore (analysis_text : PyStr) : Int :=
  (extract_score analysis_text).getD 0

/-- The filter reason built at stream.py line 308: the text
`Score below minimum (` then the score, ` < `, the threshold and `)`. -/
def scoreBelowReason (score minScore : Int) : PyStr :=
  pstr (r"Score below minimum (") ++ intToPyStr score ++ pstr (r" < ")
    ++ intToPyStr minScore ++ pstr (r")")

/-- The filter reason built at stream.py line 328: the text
`Missing required skills: ` then the missing skills joined with comma-space. -/
def missingReason (missing : List PyStr) : PyStr :=
  pstr (r"Missing required skills: ") ++ pyJoin (pstr (r", ")) missing

/-- The inner loop of `filter_candidates` (stream.py lines 316-324): a
required skill is found when its lowercase form is a substring of some
lowercased extracted skill. -/
def skillFound (reqSkill : PyStr) (skillsLower : List PyStr) : Bool :=
  skillsLower.any (fun cs => containsSub (pyLower reqSkill) cs)

/-- The `missing_skills` list of `filter_candidates` (stream.py lines
313-324): required skills with no case-insensitive substring match among the
candidate's extracted skills, in order. -/
def missingSkills (req : List PyStr) (skills : List PyStr) : List PyStr :=
  req.filter (fun s => !skillFound s (skills.map pyLower))

/-- Per-candidate body of `filter_candidates` (stream.py lines 300-328).
The body first resets `filtered_out`/`filter_reason`, then possibly sets
them; the net effect on the record is the three-way branch below (when the
score passes and either no skills are required or none is missing, the
fields keep their reset values `False`/`""`). -/
def filterOne (minScore : Int) (req : List PyStr) (c : Candidate) : Candidate :=
  if c.score < minScore then
    { c with filtered_out := true, filter_reason := scoreBelowReason c.score minScore }
  else if !req.isEmpty && !(missingSkills req c.skills).isEmpty then
    { c with filtered_out := true, filter_reason := missingReason (missingSkills req c.skills) }
  else
    { c with filtered_out := false, filter_reason := [] }

/-- Embedding of `filter_candidates` (stream.py lines 298-337).  The first
component is the session list `evaluated_candidates` after the pass (each
record updated in place); the second is the `filtered` list assigned to
`st.session_state.filtered_candidates`, holding exactly the updated records
whose `filtered_out` flag ends up false, in order. -/
def filter_candidates (minScore : Int) (req : List PyStr) (cands : List Candidate) :
    List Candidate × List Candidate :=
  let updated := cands.map (filterOne minScore req)
  (updated, updated.filter (fun c => !c.filtered_out))

/-- The deduplicating insertion of the analyze loop (stream.py lines
567-569): the freshly analyzed candidate is appended only when no already
stored candidate has the same name. -/
def addCandidate (acc : List Candidate) (c : Candidate) : List Candidate :=
  if acc.any (fun c0 => c0.name == c.name) then acc else acc ++ [c]

/-- The analyze loop over the uploaded files (stream.py lines 561-570),
restricted to the successfully analyzed candidates, in upload order. -/
def analyzeLoop (init : List Candidate) (uploads : List Candidate) : List Candidate :=
  uploads.foldl addCandidate init

/-- Outcome of one request to `POST /analyze` (flaskapi.py lines 242-264):
HTTP status, the `error` payload field, the `analysis` payload field, and
whether `analyze_resume` was invoked. -/
structure AnalyzeOutcome where
  status : Nat
  errorMsg : Option PyStr
  analysisBody : Option PyStr
  analysisAttempted : Bool
deriving DecidableEq, Repr

/-- The 400 message for a missing field (flaskapi.py line 249). -/
def msgRequired : PyStr := pstr (r"Job description and resume are required")

/-- The 400 message for an unextractable PDF (flaskapi.py line 253). -/
def msgNoExtract : PyStr := pstr (r"Could not extract text from the PDF")

/-- The `ValueError` message raised by `analyze_resume` when no API key is
configured (flaskapi.py line 96), surfaced with status 400 at line 261. -/
def msgInvalidKey : PyStr :=
  pstr (r"Invalid API key. Please configure a valid API key in the .env file.")

/-- Embedding of the `/analyze` endpoint (flaskapi.py lines 242-264).

`ρ` is the type of uploaded files; `extractTextFromPdf` models
`extract_text_from_pdf` (lines 84-91), whose `none` covers both a raised
extraction error and the empty-text case folded by the endpoint's
`if not resume_text` check; `llm` models the body of `analyze_resume`
after its internal model fallback, which always returns a string (lines
94-168, error strings included).  A missing or empty `job_description`
and a missing `resume` file are falsy, so they hit the line-249 branch
before any extraction or analysis; `analysisAttempted` records whether
`analyze_resume` was invoked. -/
def analyzeEndpoint {ρ : Type} (apiKeyConfigured : Bool) (llm : PyStr → PyStr → PyStr)
    (extractTextFromPdf : ρ → Option PyStr)
    (job_description : Option PyStr) (resume : Option ρ) : AnalyzeOutcome :=
  match job_description, resume with
  | some jd, some r =>
    if jd.isEmpty then ⟨400, some msgRequired, none, false⟩
    else
      match extractTextFromPdf r with
      | none => ⟨400, some msgNoExtract, none, false⟩
      | some text =>
        if text.isEmpty then ⟨400, some msgNoExtract, none, false⟩
        else if apiKeyConfigured then ⟨200, none, some (llm text jd), true⟩
        else ⟨400, some msgInvalidKey, none, true⟩
  | _, _ => ⟨400, some msgRequired, none, false⟩

/-- The characters `": 73"` following the `"Score"` token in the claim-C4
family of texts. -/
def colon73 : PyStr := [':', ' ', '7', '3']

/-- Concrete analysis text for the claim-C3 counterexample: two separated
runs of digits after the `"Score"` token. -/
def cexRunsText : PyStr := pstr (r"Score: 12 and 34")

/-- Concrete analysis text for the claim-C4 counterexample: it contains the
substring `"Score: 73"` yet carries a further digit on the same line. -/
def cexScore73Text : PyStr := pstr (r"Score: 734")

/-- Concrete analysis text for the claim-C5 counterexample. -/
def cexSkillsText : PyStr := pstr ("Strengths:\n- Python\nWeaknesses:")

/-- Concrete analysis text for the claim-C9 counterexample: the parsed score
exceeds 100. -/
def cexBigScoreText : PyStr := pstr (r"Score: 150")

/-- First upload of the duplicate-name pair used for claim C6. -/
def dupCandA : Candidate :=
  { name := pstr (r"alice"), analysis := pstr (r"Score: 80"), score := 80,
    skills := [pstr (r"Python")], verdict := pstr (r"Hire"),
    filtered_out := false, filter_reason := [] }

/-- Second upload of the duplicate-name pair used for claim C6: the same
filename-derived name, a different analysis. -/
def dupCandB : Candidate :=
  { dupCandA with
    analysis := pstr (r"Score: 90")
    score := 90
    verdict := pstr (r"Strong hire") }

/-- Concrete candidate fed to the filter in the claim-C1 witness; the stale
flags are reset by the filter pass. -/
def wCand1In : Candidate :=
  { name := pstr (r"bob"), analysis := [], score := 80, skills := [],
    verdict := [], filtered_out := true, filter_reason := pstr (r"stale") }

/-- The claim-C1 witness candidate after the filter pass. -/
def wCand1Out : Candidate :=
  { wCand1In with filtered_out := false, filter_reason := [] }

/-- Concrete candidate fed to the filter in the claim-C2 witness. -/
def wCand2In : Candidate :=
  { name := pstr (r"carol"), analysis := [], score := 80,
    skills := [pstr (r"Python3")], verdict := [],
    filtered_out := true, filter_reason := pstr (r"stale") }

/-- The claim-C2 witness candidate after the filter pass: the required skill
`"python"` matches the extracted skill `"Python3"` case-insensitively. -/
def wCand2Out : Candidate :=
  { wCand2In with filtered_out := false, filter_reason := [] }

/-- The required-skill list of the claim-C2 witness. -/
def wReq2 : List PyStr := [pstr (r"python")]

/-! ## Helper lemmas on the string model -/

theorem startsWithL_self_append (t z : PyStr) : startsWithL t (t ++ z) = true := by
  induction t with
  | nil => rfl
  | cons c t ih => simp [startsWithL, ih]

theorem containsSub_of_startsWithL (pat s : PyStr) (h : startsWithL pat s = true) :
    containsSub pat s = true := by
  cases s with
  | nil => exact h
  | cons c cs => simp [containsSub, h]

theorem containsSub_append_left (pat : PyStr) {y : PyStr} (h : containsSub pat y = true)
    (x : PyStr) : containsSub pat (x ++ y) = true := by
  induction x with
  | nil => simpa
  | cons c x ih => simp [containsSub, ih]

theorem startsWithL_scoreTok_cons {c : Char} (cs : PyStr) (h : ('S' == c) = false) :
    startsWithL scoreTok (c :: cs) = false := by
  simp [scoreTok, pstr, startsWithL, h]

theorem takeBefore_cons_of_pos {sep : PyStr} {c : Char} {cs : PyStr}
    (h : startsWithL sep (c :: cs) = true) : takeBefore sep (c :: cs) = [] := by
  simp [takeBefore, h]

theorem takeBefore_cons_of_neg {sep : PyStr} {c : Char} {cs : PyStr}
    (h : startsWithL sep (c :: cs) = false) :
    takeBefore sep (c :: cs) = c :: takeBefore sep cs := by
  simp [takeBefore, h]

theorem takeBefore_nl_cons {c : Char} (cs : PyStr) (h : ('\n' == c) = false) :
    takeBefore nlTok (c :: cs) = c :: takeBefore nlTok cs := by
  simp [takeBefore, nlTok, pstr, startsWithL, h]

theorem takeBefore_nl_stop (cs : PyStr) : takeBefore nlTok ('\n' :: cs) = [] := by
  simp [takeBefore, nlTok, pstr, startsWithL]

theorem takeBefore_scoreTok_cons {c : Char} (cs : PyStr) (h : ('S' == c) = false) :
    takeBefore scoreTok (c :: cs) = c :: takeBefore scoreTok cs :=
  takeBefore_cons_of_neg (startsWithL_scoreTok_cons cs h)

/-- The first `"Score"` occurrence in `p ++ "Score" ++ r` is the explicit
one whenever the letter `S` does not occur in `p`. -/
theorem afterFirst_scoreTok_append {p : PyStr} (r : PyStr) (hp : 'S' ∉ p) :
    afterFirst scoreTok (p ++ (scoreTok ++ r)) = r := by
  induction p with
  | nil =>
    have h1 : startsWithL scoreTok (scoreTok ++ r) = true := startsWithL_self_append scoreTok r
    have h2 : scoreTok ++ r = 'S' :: (['c', 'o', 'r', 'e'] ++ r) := rfl
    rw [List.nil_append, h2, afterFirst]
    rw [h2] at h1
    simp only [h1, if_true]
    rw [← h2]
    have h3 : scoreTok.length = (scoreTok : PyStr).length := rfl
    exact List.drop_left scoreTok r
  | cons c p ih =>
    simp only [List.mem_cons, not_or] at hp
    have hc : ('S' == c) = false := beq_eq_false_iff_ne.mpr hp.1
    rw [List.cons_append, afterFirst]
    simp only [startsWithL_scoreTok_cons _ hc, if_false]
    exact ih hp.2

/-- The digit characters of the segment before the first newline of the
text before the first further `"Score"` token are exactly what the single
scan `collectScoreDigits` collects. -/
theorem filter_digits_takeBefore_eq (r : PyStr) :
    (takeBefore nlTok (takeBefore scoreTok r)).filter Char.isDigit = collectScoreDigits r := by
  induction r with
  | nil => rfl
  | cons c cs ih =>
    by_cases h1 : startsWithL scoreTok (c :: cs) = true
    · rw [takeBefore_cons_of_pos h1]
      simp [collectScoreDigits, h1, takeBefore]
    · have h1f : startsWithL scoreTok (c :: cs) = false := by simpa using h1
      rw [takeBefore_cons_of_neg h1f]
      by_cases h2 : c = '\n'
      · subst h2
        rw [takeBefore_nl_stop]
        simp [collectScoreDigits, h1f]
      · have h2f : ('\n' == c) = false := beq_eq_false_iff_ne.mpr (fun h => h2 h.symm)
        have h2g : (c == '\n') = false := beq_eq_false_iff_ne.mpr h2
        rw [takeBefore_nl_cons _ h2f, List.filter_cons]
        by_cases h3 : c.isDigit
        · simp [collectScoreDigits, h1f, h2g, h3, ih]
        · simp [collectScoreDigits, h1f, h2g, h3, ih]

/-- A parsed digit string is non-negative. -/
theorem digitsToInt_nonneg (ds : PyStr) : 0 ≤ digitsToInt ds := Int.natCast_nonneg _

/-- Any defined result of `extract_score` is non-negative. -/
theorem extract_score_nonneg (t : PyStr) (v : Int) (h : extract_score t = some v) :
    0 ≤ v := by
  simp only [extract_score] at h
  split at h
  · split at h
    · exact absurd h (by simp)
    · rw [Option.some_inj] at h
      exact h ▸ digitsToInt_nonneg _
  · exact absurd h (by simp)

/-- A left fold that appends `f l` for each element satisfying `p` computes
`map f` of the filtered list. -/
theorem foldl_append_filter_map {α β : Type} (p : α → Bool) (f : α → β) (L : List α)
    (acc : List β) :
    L.foldl (fun skills l => if p l then skills ++ [f l] else skills) acc
      = acc ++ (L.filter p).map f := by
  induction L generalizing acc with
  | nil => simp
  | cons a L ih =>
    by_cases h : p a
    · simp [h, ih]
    · simp [h, ih]

/-! ## Claim C3 -/

/-- Claim C3 counterexample: on the text `"Score: 12 and 34"` the code
concatenates the two digit runs and returns 1234, while the claim (`the
integer formed by the first run of digits following the token`) demands
12. -/
theorem C3_counterexample :
    extract_score cexRunsText = some 1234 ∧ extract_score_spec cexRunsText = some 12 ∧
    extract_score cexRunsText ≠ extract_score_spec cexRunsText := by
  refine ⟨by decide, by decide, by decide⟩

/-- Claim C3 (amended): for every analysis text, score extraction returns
the integer formed by concatenating all the digit characters lying after
the first `"Score"` token and before the first subsequent newline or
further `"Score"` token, and returns null when the token is absent or that
segment holds no digit. -/
theorem C3_amended_thm (t : PyStr) : extract_score t = extract_score_amended t := by
  simp only [extract_score, extract_score_amended, splitIdx0, splitIdx1]
  by_cases h : containsSub scoreTok t = true
  · simp only [h, if_true, filter_digits_takeBefore_eq]
  · simp only [h]
    simp

/-! ## Claim C4 -/

/-- Claim C4 counterexample: the text `"Score: 734"` contains the substring
`"Score: 73"`, yet score extraction returns 734, not 73. -/
theorem C4_counterexample :
    containsSub (pstr (r"Score: 73")) cexScore73Text = true ∧
    extract_score cexScore73Text = some 734 ∧
    extract_score cexScore73Text ≠ some 73 := by
  refine ⟨by decide, by decide, by decide⟩

/-- Claim C4 (amended): for every response text of the form
`p ++ "Score: 73" ++ s` in which the letter `S` does not occur in `p` (so
the displayed token is the first `"Score"`) and `s` is empty or starts with
a newline (so no further digit lands on the score line), score extraction
returns 73. -/
theorem C4_amended_thm (p s : PyStr) (hp : 'S' ∉ p)
    (hs : s = [] ∨ ∃ s2, s = '\n' :: s2) :
    extract_score (p ++ pstr (r"Score: 73") ++ s) = some 73 := by
  have hlit : (pstr (r"Score: 73") : PyStr) = scoreTok ++ colon73 := rfl
  have hform : p ++ pstr (r"Score: 73") ++ s = p ++ (scoreTok ++ (colon73 ++ s)) := by
    rw [hlit, List.append_assoc, List.append_assoc]
  rw [hform]
  have hcont : containsSub scoreTok (p ++ (scoreTok ++ (colon73 ++ s))) = true :=
    containsSub_append_left _
      (containsSub_of_startsWithL _ _ (startsWithL_self_append _ _)) p
  have haf : afterFirst scoreTok (p ++ (scoreTok ++ (colon73 ++ s))) = colon73 ++ s :=
    afterFirst_scoreTok_append _ hp
  have hseg : (takeBefore nlTok (takeBefore scoreTok (colon73 ++ s))).filter Char.isDigit
      = ['7', '3'] := by
    rcases hs with h | ⟨s2, h⟩
    · subst h; decide
    · subst h
      have e1 : colon73 ++ '\n' :: s2 = ':' :: ' ' :: '7' :: '3' :: '\n' :: s2 := rfl
      rw [e1, takeBefore_scoreTok_cons _ (by decide), takeBefore_scoreTok_cons _ (by decide),
          takeBefore_scoreTok_cons _ (by decide), takeBefore_scoreTok_cons _ (by decide),
          takeBefore_scoreTok_cons _ (by decide), takeBefore_nl_cons _ (by decide),
          takeBefore_nl_cons _ (by decide), takeBefore_nl_cons _ (by decide),
          takeBefore_nl_cons _ (by decide), takeBefore_nl_stop]
      decide
  simp only [extract_score, splitIdx0, splitIdx1, hcont, if_true, haf, hseg]
  decide

/-! ## Claim C5 -/

/-- Claim C5 counterexample: on the analysis text
`"Strengths:\n- Python\nWeaknesses:"` the code returns `["Python"]` (the
stripped line with its first two characters removed), while the claim
(`exactly the lines beginning with -`) demands `["- Python"]`. -/
theorem C5_counterexample :
    extract_skills cexSkillsText = [pstr (r"Python")] ∧
    extract_skills_spec cexSkillsText = [pstr (r"- Python")] ∧
    extract_skills cexSkillsText ≠ extract_skills_spec cexSkillsText := by
  refine ⟨by decide, by decide, by decide⟩

/-- Claim C5 (amended): for every analysis text, skill extraction returns,
for each line of the span between the `"Strengths:"` and `"Weaknesses:"`
markers whose whitespace-stripped form begins with `-`, the stripped form
with its first two characters removed, in order; it returns the empty list
when the `"Strengths:"` marker is absent. -/
theorem C5_amended_thm (t : PyStr) : extract_skills t = extract_skills_amended t := by
  simp only [extract_skills, extract_skills_amended]
  by_cases h : containsSub strengthsTok t = true
  · simp only [h, if_true]
    rw [foldl_append_filter_map]
    simp
  · simp [h]

/-! ## Claim C9 -/

/-- Claim C9 counterexample: the analysis text `"Score: 150"` yields a
stored score of 150, outside the claimed 0-100 range. -/
theorem C9_counterexample :
    storedScore cexBigScoreText = 150 ∧ ¬ storedScore cexBigScoreText ≤ 100 := by
  refine ⟨by decide, by decide⟩

/-- Claim C9 (amended): for every analysis text, the derived score stored
in a candidate record is a non-negative integer (0 when extraction fails);
no upper bound is enforced. -/
theorem C9_amended_thm (t : PyStr) : 0 ≤ storedScore t := by
  rw [storedScore]
  rcases he : extract_score t with _ | v
  · simp
  · simpa using extract_score_nonneg t v he

/-- Claim C4 witness: a concrete instance of the amended claim, with a
preceding fragment and a later score line. -/
theorem C4_amended_witness :
    extract_score (pstr (r"xy") ++ pstr (r"Score: 73") ++ pstr ("\nScore: 99")) = some 73 :=
  C4_amended_thm (pstr (r"xy")) (pstr ("\nScore: 99")) (by decide)
    (Or.inr ⟨pstr (r"Score: 99"), rfl⟩)

/-! ## The filter pass -/

theorem filter_candidates_fst (m : Int) (req : List PyStr) (cands : List Candidate) :
    (filter_candidates m req cands).1 = cands.map (filterOne m req) := rfl

theorem filter_candidates_snd (m : Int) (req : List PyStr) (cands : List Candidate) :
    (filter_candidates m req cands).2
      = (cands.map (filterOne m req)).filter (fun c => !c.filtered_out) := rfl

theorem filterOne_score (m : Int) (req : List PyStr) (c : Candidate) :
    (filterOne m req c).score = c.score := by
  rw [filterOne]; split_ifs <;> rfl

theorem filterOne_skills (m : Int) (req : List PyStr) (c : Candidate) :
    (filterOne m req c).skills = c.skills := by
  rw [filterOne]; split_ifs <;> rfl

theorem filterOne_of_lt {m : Int} (req : List PyStr) {c : Candidate} (h : c.score < m) :
    filterOne m req c =
      { c with filtered_out := true, filter_reason := scoreBelowReason c.score m } := by
  rw [filterOne, if_pos h]

theorem filterOne_nil_of_ge {m : Int} {c : Candidate} (h : ¬ c.score < m) :
    filterOne m [] c = { c with filtered_out := false, filter_reason := [] } := by
  rw [filterOne, if_neg h]
  rfl

theorem filterOne_req_of_ge {m : Int} {req : List PyStr} {c : Candidate}
    (h : ¬ c.score < m) (hreq : req ≠ []) :
    filterOne m req c =
      if (missingSkills req c.skills).isEmpty then
        { c with filtered_out := false, filter_reason := [] }
      else
        { c with filtered_out := true,
                 filter_reason := missingReason (missingSkills req c.skills) } := by
  rw [filterOne, if_neg h]
  have hne : req.isEmpty = false := by
    cases req with
    | nil => exact absurd rfl hreq
    | cons a l => rfl
  by_cases hm : (missingSkills req c.skills).isEmpty = true
  · simp [hne, hm]
  · simp [hne, hm]

theorem filterOne_flag_req {m : Int} {req : List PyStr} {c : Candidate}
    (h : ¬ c.score < m) (hreq : req ≠ []) :
    (filterOne m req c).filtered_out = !(missingSkills req c.skills).isEmpty := by
  rw [filterOne_req_of_ge h hreq]
  by_cases hm : (missingSkills req c.skills).isEmpty = true
  · rw [if_pos hm]; simp [hm]
  · rw [if_neg hm]
    have hm2 : (missingSkills req c.skills).isEmpty = false := by simpa using hm
    simp [hm2]

/-- The `missing_skills` list is non-empty exactly when some required skill
has no case-insensitive substring match among the given skills. -/
theorem missingSkills_empty_false_iff (req skills : List PyStr) :
    (missingSkills req skills).isEmpty = false ↔
      ∃ s ∈ req, ∀ cs ∈ skills, containsSub (pyLower s) (pyLower cs) = false := by
  rw [← Bool.not_eq_true, List.isEmpty_iff, missingSkills, List.filter_eq_nil_iff]
  push_neg
  constructor
  · rintro ⟨s, hs, hpos⟩
    refine ⟨s, hs, ?_⟩
    intro cs hcs
    have hf : skillFound s (skills.map pyLower) = false := by simpa using hpos
    rw [skillFound] at hf
    have := List.any_eq_false.mp hf (pyLower cs) (List.mem_map_of_mem _ hcs)
    simpa using this
  · rintro ⟨s, hs, hall⟩
    refine ⟨s, hs, ?_⟩
    have hf : skillFound s (skills.map pyLower) = false := by
      rw [skillFound, List.any_eq_false]
      intro x hx
      obtain ⟨cs, hcs, rfl⟩ := List.mem_map.mp hx
      simp [hall cs hcs]
    simp [hf]

/-! ## Claim C1 -/

/-- Claim C1 (confirmed): every filter pass flags each candidate scoring
strictly below the threshold; with no required skills every candidate
scoring at or above the threshold lands in the qualified list; and with
min_score = 50 the qualified list holds exactly the updated candidates
scoring at least 50. -/
theorem C1_min_score_filter (m : Int) (req : List PyStr) (cands : List Candidate) :
    (∀ c ∈ (filter_candidates m req cands).1, c.score < m → c.filtered_out = true)
    ∧ (∀ c ∈ (filter_candidates m [] cands).1,
        m ≤ c.score → c ∈ (filter_candidates m [] cands).2)
    ∧ (∀ c ∈ (filter_candidates 50 [] cands).1,
        c ∈ (filter_candidates 50 [] cands).2 ↔ 50 ≤ c.score) := by
  refine ⟨?_, ?_, ?_⟩
  · intro c hc hlt
    rw [filter_candidates_fst] at hc
    obtain ⟨a, ha, rfl⟩ := List.mem_map.mp hc
    rw [filterOne_score] at hlt
    rw [filterOne_of_lt req hlt]
  · intro c hc hge
    rw [filter_candidates_fst] at hc
    obtain ⟨a, ha, rfl⟩ := List.mem_map.mp hc
    rw [filterOne_score] at hge
    rw [filter_candidates_snd]
    refine List.mem_filter.mpr ⟨List.mem_map.mpr ⟨a, ha, rfl⟩, ?_⟩
    rw [filterOne_nil_of_ge (not_lt.mpr hge)]
    rfl
  · intro c hc
    rw [filter_candidates_fst] at hc
    obtain ⟨a, ha, rfl⟩ := List.mem_map.mp hc
    constructor
    · intro hmem
      rw [filter_candidates_snd] at hmem
      have hflag := (List.mem_filter.mp hmem).2
      rw [filterOne_score]
      by_contra hnot
      rw [not_le] at hnot
      rw [filterOne_of_lt [] hnot] at hflag
      simp at hflag
    · intro hge
      rw [filterOne_score] at hge
      rw [filter_candidates_snd]
      refine List.mem_filter.mpr ⟨List.mem_map.mpr ⟨a, ha, rfl⟩, ?_⟩
      rw [filterOne_nil_of_ge (not_lt.mpr hge)]
      rfl

/-- Claim C1 witness: a candidate with stale flags and score 80 is reset by
the pass with min_score 50 and lands in the qualified list. -/
theorem C1_witness : wCand1Out ∈ (filter_candidates 50 [] [wCand1In]).2 :=
  ((C1_min_score_filter 50 [] [wCand1In]).2.2 wCand1Out (by decide)).mpr (by decide)

/-! ## Claim C2 -/

/-- Claim C2 (confirmed): when a non-empty required-skill list is set, a
candidate whose score passes the threshold is flagged filtered-out exactly
when some required skill has no case-insensitive substring match inside any
of the candidate's extracted skill strings, and a candidate left unflagged
lands in the qualified list. -/
theorem C2_required_skills_filter (m : Int) (req : List PyStr) (cands : List Candidate)
    (hreq : req ≠ []) :
    ∀ c ∈ (filter_candidates m req cands).1, m ≤ c.score →
      ((c.filtered_out = true ↔
          ∃ s ∈ req, ∀ cs ∈ c.skills, containsSub (pyLower s) (pyLower cs) = false)
        ∧ (c.filtered_out = false → c ∈ (filter_candidates m req cands).2)) := by
  intro c hc hge
  rw [filter_candidates_fst] at hc
  obtain ⟨a, ha, rfl⟩ := List.mem_map.mp hc
  rw [filterOne_score] at hge
  have hng := not_lt.mpr hge
  constructor
  · rw [filterOne_flag_req hng hreq, filterOne_skills, Bool.not_eq_true']
    exact missingSkills_empty_false_iff req a.skills
  · intro hflag
    rw [filter_candidates_snd]
    refine List.mem_filter.mpr ⟨List.mem_map.mpr ⟨a, ha, rfl⟩, ?_⟩
    rw [hflag]
    rfl

/-- Claim C2 witness: with required skill `"python"`, the candidate whose
extracted skills hold `"Python3"` passes and lands in the qualified list. -/
theorem C2_witness : wCand2Out ∈ (filter_candidates 50 wReq2 [wCand2In]).2 :=
  ((C2_required_skills_filter 50 wReq2 [wCand2In] (by decide)) wCand2Out
    (by decide) (by decide)).2 (by decide)

/-! ## Claim C10 -/

theorem filterOne_idem (m : Int) (req : List PyStr) (c : Candidate) :
    filterOne m req (filterOne m req c) = filterOne m req c := by
  by_cases h1 : c.score < m <;> by_cases h2 : req.isEmpty = true <;>
    by_cases h3 : (missingSkills req c.skills).isEmpty = true <;>
      simp [filterOne, h1, h2, h3]

/-- Claim C10 (confirmed): the filter pass is idempotent — applying it to
its own output reproduces the same updated candidate records (flags and
reasons included) and the same qualified list. -/
theorem C10_filter_idempotent (m : Int) (req : List PyStr) (cands : List Candidate) :
    filter_candidates m req (filter_candidates m req cands).1
      = filter_candidates m req cands := by
  have hmap : (cands.map (filterOne m req)).map (filterOne m req)
      = cands.map (filterOne m req) := by
    rw [List.map_map]
    exact List.map_congr_left (fun a _ => filterOne_idem m req a)
  rw [filter_candidates_fst]
  show filter_candidates m req (cands.map (filterOne m req)) = filter_candidates m req cands
  simp only [filter_candidates]
  rw [hmap]

/-! ## Claim C6 -/

/-- Claim C6 counterexample: two uploads with the same filename-derived
name; the session store keeps the candidate of the earlier analysis, not
the later one demanded by the claim. -/
theorem C6_counterexample :
    dupCandA.name = dupCandB.name ∧ dupCandA ≠ dupCandB ∧
    analyzeLoop [] [dupCandA, dupCandB] = [dupCandA] ∧
    analyzeLoop [] [dupCandA, dupCandB] ≠ [dupCandB] := by
  refine ⟨rfl, by decide, by decide, by decide⟩

/-- Claim C6 (amended): when two uploaded files produce candidates with the
same name, the session store keeps a single candidate for that name and it
is the one from the earlier analysis (first-write-wins on duplicate
filenames). -/
theorem C6_first_write_wins (init : List Candidate) (c1 c2 : Candidate)
    (hname : c1.name = c2.name)
    (hfresh : ∀ c ∈ init, (c.name == c1.name) = false) :
    analyzeLoop init [c1, c2] = init ++ [c1] := by
  have hany1 : init.any (fun c0 => c0.name == c1.name) = false := by
    rw [List.any_eq_false]
    intro x hx
    simp [hfresh x hx]
  have h1 : addCandidate init c1 = init ++ [c1] := by
    simp [addCandidate, hany1]
  have hany2 : (init ++ [c1]).any (fun c0 => c0.name == c2.name) = true := by
    rw [List.any_eq_true]
    exact ⟨c1, by simp, by simp [hname]⟩
  have h2 : addCandidate (init ++ [c1]) c2 = init ++ [c1] := by
    simp [addCandidate, hany2]
  show List.foldl addCandidate init [c1, c2] = init ++ [c1]
  rw [List.foldl_cons, List.foldl_cons, List.foldl_nil, h1, h2]

/-- Claim C6 witness: with one unrelated candidate already stored, the
duplicate-name pair contributes only its first member. -/
theorem C6_first_write_wins_witness :
    analyzeLoop [wCand2In] [dupCandA, dupCandB] = [wCand2In] ++ [dupCandA] :=
  C6_first_write_wins [wCand2In] dupCandA dupCandB rfl (by decide)

/-! ## Claim C7 -/

/-- Claim C7 (confirmed): a request to `POST /analyze` with the
`job_description` form field missing or the `resume` file missing receives
status 400 with an error payload, and no analysis is attempted. -/
theorem C7_missing_field_400 (ρ : Type) (apiKey : Bool) (llm : PyStr → PyStr → PyStr)
    (extract : ρ → Option PyStr) (jd : Option PyStr) (file : Option ρ)
    (h : jd = none ∨ file = none) :
    (analyzeEndpoint apiKey llm extract jd file).status = 400 ∧
    (analyzeEndpoint apiKey llm extract jd file).errorMsg = some msgRequired ∧
    (analyzeEndpoint apiKey llm extract jd file).analysisAttempted = false := by
  rcases h with h | h
  · subst h
    cases file <;> simp [analyzeEndpoint]
  · subst h
    cases jd <;> simp [analyzeEndpoint]

/-- Claim C7 witness: a concrete request with no `job_description`. -/
theorem C7_witness :
    (analyzeEndpoint true (fun t _ => t) (fun _ : Unit => (none : Option PyStr))
        none (some ())).status = 400 ∧
    (analyzeEndpoint true (fun t _ => t) (fun _ : Unit => (none : Option PyStr))
        none (some ())).errorMsg = some msgRequired ∧
    (analyzeEndpoint true (fun t _ => t) (fun _ : Unit => (none : Option PyStr))
        none (some ())).analysisAttempted = false :=
  C7_missing_field_400 Unit true (fun t _ => t) (fun _ => none) none (some ()) (Or.inl rfl)

/-! ## Claim C8 -/

/-- Claim C8 (confirmed): a request to `POST /analyze` whose uploaded PDF
yields no extractable text (extraction returns null or the empty string)
receives status 400 with an error message containing
`"Could not extract text"`. -/
theorem C8_no_text_400 (ρ : Type) (apiKey : Bool) (llm : PyStr → PyStr → PyStr)
    (extract : ρ → Option PyStr) (jd : PyStr) (file : ρ)
    (hjd : jd.isEmpty = false)
    (hex : extract file = none ∨ extract file = some []) :
    (analyzeEndpoint apiKey llm extract (some jd) (some file)).status = 400 ∧
    ∃ m, (analyzeEndpoint apiKey llm extract (some jd) (some file)).errorMsg = some m ∧
      containsSub (pstr (r"Could not extract text")) m = true := by
  rcases hex with h | h
  · refine ⟨?_, msgNoExtract, ?_, by decide⟩ <;> simp [analyzeEndpoint, hjd, h]
  · refine ⟨?_, msgNoExtract, ?_, by decide⟩ <;> simp [analyzeEndpoint, hjd, h]

/-- Claim C8 witness: a concrete request whose extraction yields nothing. -/
theorem C8_witness :
    (analyzeEndpoint true (fun t _ => t) (fun _ : Unit => (none : Option PyStr))
        (some (pstr (r"job"))) (some ())).status = 400 ∧
    ∃ m, (analyzeEndpoint true (fun t _ => t) (fun _ : Unit => (none : Option PyStr))
        (some (pstr (r"job"))) (some ())).errorMsg = some m ∧
      containsSub (pstr (r"Could not extract text")) m = true :=
  C8_no_text_400 Unit true (fun t _ => t) (fun _ => none) (pstr (r"job")) ()
    (by decide) (Or.inl rfl)
